import Mathlib

/-!
Formal model of the sybilla log-analysis pipeline: the protocol client
(`app/services/mcp_client.py`), the analytics aggregator
(`app/services/analytics_services.py`), the risk assessor
(`app/services/nvidia_nim_client.py` together with the command generator in
`app/scheduler.py`), the pipeline orchestrator (`AnalysisScheduler.run_analysis`)
and the HTTP trigger endpoints (`app/api/routes.py`), with theorems settling
the specification claims about them.

Modelling conventions.  Python dictionaries whose keys are fixed by the source
are modelled as structures; a key that some code path omits is modelled as an
`Option` field (`none` = key absent, mirroring Python's `key in d` test and
`d.get(key, default)` access).  External effects (subprocess execution, HTTP
calls to the model backend, report rendering, object-storage uploads) are
modelled by passing their outcomes as explicit `Except` parameters; an
`Except.error` value stands for the corresponding Python call raising an
exception (or, for the backend process, exiting non-zero), and `Except.ok`
for it returning normally.  Machine integers are modelled as `Nat` (Python
integers are unbounded, so no overflow annotation is needed).
-/

namespace Sybilla

/-- Keys of a Python `dict` / `collections.Counter` in first-insertion order:
`uniqueKeys l` lists the distinct elements of `l`, each at its first
occurrence. -/
def uniqueKeys {α : Type} [DecidableEq α] : List α → List α
  | [] => []
  | x :: xs => x :: (uniqueKeys xs).filter (fun y => y != x)

/-!
## Protocol client (`app/services/mcp_client.py`)

`MCPClient._call_server_simple` spawns the backend process per call, feeds it
one JSON request and scans the captured stdout for a response line.  The JSON
serializer/parser is an external library; a stdout line is therefore modelled
as its two scanning attributes (does the stripped line start with a left brace,
does it contain the text tag of the protocol version key) plus the outcome of
`json.loads` on it (`none` = the parse raises and the loop continues).
-/

/-- A parsed JSON-RPC message (the dict `json.loads` returns for a response
line, and also the `\x7b"error": ...\x7d` dicts the client itself builds). -/
structure RpcMsg where
  id : Option Nat := none
  result : Option String := none
  error : Option String := none
deriving DecidableEq, Repr

/-- One line of the backend process's stdout, as seen by the scanning loop. -/
structure OutLine where
  /-- the stripped line starts with a left brace -/
  startsLbrace : Bool
  /-- the raw text of the line contains the substring matching the protocol
  version tag key -/
  hasJsonrpcTag : Bool
  /-- outcome of `json.loads` on the stripped line (`none`: raises) -/
  parses : Option RpcMsg
deriving DecidableEq, Repr

/-- The scanning loop's candidate test: `line.startswith` a left brace and the
version tag text occurs in the line. -/
def OutLine.isCandidate (l : OutLine) : Bool :=
  l.startsLbrace && l.hasJsonrpcTag

/-- The error dict `\x7b"error": msg\x7d` the client returns on failure. -/
def errDict (msg : String) : RpcMsg :=
  { id := none, result := none, error := some msg }

/-- The stdout scanning loop of `_call_server_simple`: return the parse of a
candidate line as soon as one parses, otherwise fall through to the
no-response error dict. -/
def scanStdout : List OutLine → RpcMsg
  | [] => errDict "No valid JSON response"
  | l :: rest =>
    if l.isCandidate then
      match l.parses with
      | some m => m
      | none => scanStdout rest
    else scanStdout rest

/-- The lines the scanning loop can accept, in stdout order: candidate lines
on which `json.loads` succeeds. -/
def candidateParses (lines : List OutLine) : List RpcMsg :=
  lines.filterMap fun l => if l.isCandidate then l.parses else none

/-- Whole-call result of `_call_server_simple` given the spawned process's
exit code, stderr and stdout lines: a non-zero exit short-circuits to a
transport error dict, otherwise stdout is scanned. -/
def callServerSimple (returncode : Int) (stderr : String) (stdout : List OutLine) : RpcMsg :=
  if returncode != 0 then errDict ("Server error: " ++ stderr)
  else scanStdout stdout

/-- Mutable client state: the correlation id counter (`self.request_id`). -/
structure MCPClientState where
  request_id : Nat
deriving DecidableEq, Repr

/-- A fresh client (`MCPClient.__init__` sets `self.request_id = 0`). -/
def MCPClientState.fresh : MCPClientState := { request_id := 0 }

/-- An outbound request as stamped by the client (`request["id"] = ...`). -/
structure RpcRequest where
  method : String
  id : Nat
deriving DecidableEq, Repr

/-- The id-assignment step at the top of `_call_server_simple`:
`self.request_id += 1; request["id"] = self.request_id`. -/
def prepareRequest (st : MCPClientState) (method : String) : MCPClientState × RpcRequest :=
  let rid := st.request_id + 1
  ({ request_id := rid }, { method := method, id := rid })

/-- The outbound requests produced by a sequence of calls through one client
instance. -/
def requestTrace (st : MCPClientState) : List String → List RpcRequest
  | [] => []
  | m :: ms =>
    let p := prepareRequest st m
    p.2 :: requestTrace p.1 ms

/-!
## Analytics aggregator (`app/services/analytics_services.py`)

`AnalyticsService` fans one "get current analytics" request out into one
query per grouping dimension plus one bulk per-address log fetch, and merges
the results.  Each `MCPClient` query method catches every exception internally
and returns either a parsed data dict or an `\x7b"error": msg\x7d` dict; a
per-dimension query is therefore modelled as an `Except String GroupData`
outcome.
-/

/-- One log row as consumed by `_analyze_ip_addresses` (a dict; `none` models
an absent key, read through `log_entry.get(key, "Unknown")`). -/
structure LogEntry where
  ip : Option String := none
  country : Option String := none
  sensor : Option String := none
  city : Option String := none
deriving DecidableEq, Repr

/-- `log_entry.get("ip", "Unknown")`. -/
def LogEntry.ipOf (l : LogEntry) : String := l.ip.getD "Unknown"

/-- `log_entry.get("country", "Unknown")`. -/
def LogEntry.countryOf (l : LogEntry) : String := l.country.getD "Unknown"

/-- `log_entry.get("sensor", "Unknown")`. -/
def LogEntry.sensorOf (l : LogEntry) : String := l.sensor.getD "Unknown"

/-- `log_entry.get("city", "Unknown")` followed by the blank-city fixup. -/
def LogEntry.cityOf (l : LogEntry) : String :=
  let c := l.city.getD "Unknown"
  if c = "" ∨ c.trim = "" then "Unknown" else c

/-- The per-group record built by `format_grouped_data` inside
`_analyze_ip_addresses`. -/
structure IpGroupInfo where
  unique_ips : Nat
  top_ip : String
  all_ips : List (String × Nat)
deriving DecidableEq, Repr

/-- The `threat_indicators` sub-dict that `_generate_security_commands` and
`_create_analysis_prompt` look up inside `ip_analytics`:
`ssh_outside_budapest` is a list of addresses, `multiple_sensors` a dict from
address to the sensors it touched. -/
structure ThreatIndicators where
  ssh_outside_budapest : List String := []
  multiple_sensors : List (String × List String) := []
deriving DecidableEq, Repr

/-- The `ip_analytics` dict.  `_analyze_ip_addresses` emits exactly the keys
`ip_distribution`, `ip_by_country`, `ip_by_sensor`, `ip_by_city` and
`total_unique_ips`; the error branches of `_get_ip_analytics` add an `error`
key.  No code path of the service writes a `threat_indicators` key, so that
field is `none` on every produced record (it is a field here so that the
consumers' `.get("threat_indicators", \x7b\x7d)` access can be modelled). -/
structure IpAnalytics where
  ip_distribution : List (String × Nat)
  ip_by_country : List (String × IpGroupInfo)
  ip_by_sensor : List (String × IpGroupInfo)
  ip_by_city : List (String × IpGroupInfo)
  total_unique_ips : Nat
  error : Option String := none
  threat_indicators : Option ThreatIndicators := none
deriving DecidableEq, Repr

/-- `Counter(xs).most_common()`: pairs of key and count, sorted by count
descending, ties kept in first-insertion order (`sorted` and hence
`most_common` are stable). -/
def mostCommon (xs : List String) : List (String × Nat) :=
  ((uniqueKeys xs).map fun k => (k, xs.count k)).insertionSort
    (fun a b => b.2 ≤ a.2)

/-- `format_grouped_data` applied to one group: the group's request counter
over the addresses `gips` observed in the group. -/
def formatGroup (gips : List String) : IpGroupInfo :=
  let sorted := mostCommon gips
  { unique_ips := (uniqueKeys gips).length
    top_ip :=
      match sorted with
      | [] => "None"
      | (ip, c) :: _ => ip ++ " (" ++ toString c ++ ")"
    all_ips := sorted }

/-- Grouping of the logs' addresses by a key function (the
`defaultdict(... set/Counter ...)` accumulation in `_analyze_ip_addresses`),
already rendered through `format_grouped_data`. -/
def groupIpsBy (keyOf : LogEntry → String) (logs : List LogEntry) :
    List (String × IpGroupInfo) :=
  (uniqueKeys (logs.map keyOf)).map fun g =>
    (g, formatGroup ((logs.filter fun l => keyOf l == g).map LogEntry.ipOf))

/-- `AnalyticsService._analyze_ip_addresses`.  (Rows that are not dicts are
skipped by the `except/continue` in the source; the typed embedding covers
the dict-shaped rows.) -/
def analyzeIpAddresses (logs : List LogEntry) : IpAnalytics :=
  if logs.isEmpty then
    { ip_distribution := []
      ip_by_country := []
      ip_by_sensor := []
      ip_by_city := []
      total_unique_ips := 0 }
  else
    let ips := logs.map LogEntry.ipOf
    { ip_distribution := mostCommon ips
      ip_by_country := groupIpsBy LogEntry.countryOf logs
      ip_by_sensor := groupIpsBy LogEntry.sensorOf logs
      ip_by_city := groupIpsBy LogEntry.cityOf logs
      total_unique_ips := (uniqueKeys ips).length }

/-- `AnalyticsService._get_ip_analytics`: on a successful fetch the extracted
log rows are analyzed; on an error response or an exception the empty
distributions plus a recorded partial-failure note are returned. -/
def getIpAnalytics (outcome : Except String (List LogEntry)) : IpAnalytics :=
  match outcome with
  | .ok logs => analyzeIpAddresses logs
  | .error e =>
    { ip_distribution := []
      ip_by_country := []
      ip_by_sensor := []
      ip_by_city := []
      total_unique_ips := 0
      error := some e }

/-- The data dict returned by `MCPClient.get_traffic_analytics_by_group` for
one grouping dimension (every key optional: the backend's parsed reply is a
free-form dict; the summary-statistics loop probes each key with `in`). -/
structure GroupData where
  /-- the dimension's `<group>_distribution` mapping (key → request count) -/
  distribution : Option (List (String × Nat)) := none
  total_requests : Option Nat := none
  unique_countries : Option Nat := none
  unique_cities : Option Nat := none
  unique_sensors : Option Nat := none
  unique_isps : Option Nat := none
  error : Option String := none
deriving DecidableEq, Repr

/-- A failed dimension query: the method returns only `\x7b"error": msg\x7d`. -/
def fetchGroup (outcome : Except String GroupData) : GroupData :=
  match outcome with
  | .ok g => g
  | .error e => { error := some e }

/-- The `<group>_distribution` access used by every consumer of a dimension
dict (`.get("<group>_distribution", \x7b\x7d)`). -/
def distributionOf (g : GroupData) : List (String × Nat) :=
  g.distribution.getD []

/-- Sum of the request counts of a distribution. -/
def distSum (d : List (String × Nat)) : Nat :=
  (d.map Prod.snd).sum

/-- The four grouping dimensions queried by `_get_multi_dimensional_data`. -/
inductive Dim where
  | country
  | city
  | sensor
  | isp
deriving DecidableEq, Repr

/-- The dict assembled by `AnalyticsService._get_multi_dimensional_data`. -/
structure MultiDims where
  country_analytics : GroupData
  city_analytics : GroupData
  sensor_analytics : GroupData
  isp_analytics : GroupData
  time_range : String
deriving DecidableEq, Repr

/-- `_get_multi_dimensional_data`: one independent query per dimension; a
dimension's failure is absorbed into its own error dict and never raises. -/
def multiDimensionalData (country city sensor isp : Except String GroupData)
    (timeRange : String) : MultiDims :=
  { country_analytics := fetchGroup country
    city_analytics := fetchGroup city
    sensor_analytics := fetchGroup sensor
    isp_analytics := fetchGroup isp
    time_range := timeRange }

/-- Projection of a `MultiDims` record at a dimension. -/
def MultiDims.dim (md : MultiDims) : Dim → GroupData
  | .country => md.country_analytics
  | .city => md.city_analytics
  | .sensor => md.sensor_analytics
  | .isp => md.isp_analytics

/-- The `summary_statistics` dict of `_calculate_summary_stats` (fields not
needed by any claim are omitted). -/
structure SummaryStats where
  total_requests : Nat
  unique_countries : Nat
  unique_cities : Nat
  unique_sensors : Nat
  unique_isps : Nat
  unique_ips : Nat
  top_ips : List (String × Nat)
deriving DecidableEq, Repr

/-- `AnalyticsService._calculate_summary_stats`: loop over the four dimension
dicts in order, taking the running `max` of any reported `total_requests` and
overwriting each `unique_*` field whenever a dict carries the key; then add
the address-analytics digest. -/
def calculateSummaryStats (md : MultiDims) (ipa : IpAnalytics) : SummaryStats :=
  let dims := [md.country_analytics, md.city_analytics,
               md.sensor_analytics, md.isp_analytics]
  { total_requests :=
      dims.foldl (fun acc g => match g.total_requests with
        | some t => max acc t
        | none => acc) 0
    unique_countries := dims.foldl (fun acc g => g.unique_countries.getD acc) 0
    unique_cities := dims.foldl (fun acc g => g.unique_cities.getD acc) 0
    unique_sensors := dims.foldl (fun acc g => g.unique_sensors.getD acc) 0
    unique_isps := dims.foldl (fun acc g => g.unique_isps.getD acc) 0
    unique_ips := ipa.total_unique_ips
    top_ips := ipa.ip_distribution.take 10 }

/-- The `current_period` sub-dict of the comprehensive analysis data: the four
dimension dicts, the time range, and the address analytics spliced in. -/
structure CurrentPeriod where
  country_analytics : GroupData
  city_analytics : GroupData
  sensor_analytics : GroupData
  isp_analytics : GroupData
  time_range : String
  ip_analytics : IpAnalytics
deriving DecidableEq, Repr

/-- The comprehensive analysis dict produced once per run (the
`countries_analysis` block and the timestamp are omitted: no claim concerns
them). -/
structure AnalysisData where
  current_period : CurrentPeriod
  summary_statistics : SummaryStats
  target_countries : List String
deriving DecidableEq, Repr

/-- `AnalyticsService.prepare_comprehensive_analysis`: the multi-dimensional
queries and the address fetch are combined; the time range is fixed to
one hour in the source. -/
def prepareComprehensiveAnalysis (country city sensor isp : Except String GroupData)
    (ipOutcome : Except String (List LogEntry)) (targetCountries : List String) :
    AnalysisData :=
  let md := multiDimensionalData country city sensor isp "1h"
  let ipa := getIpAnalytics ipOutcome
  { current_period :=
      { country_analytics := md.country_analytics
        city_analytics := md.city_analytics
        sensor_analytics := md.sensor_analytics
        isp_analytics := md.isp_analytics
        time_range := md.time_range
        ip_analytics := ipa }
    summary_statistics := calculateSummaryStats md ipa
    target_countries := targetCountries }

/-!
## Risk assessor

`NVIDIANIMClient.analyze_logs` posts a chat completion and feeds the reply
text to `_parse_comprehensive_response`; the JSON block extracted from the
reply (empty when no block is found or decoding fails) is modelled as a
record of optional fields, and the whole model-call-plus-parse step as an
`Except String JsonFields` outcome (`error` = the HTTP call, prompt
construction, or anything else in the scheduler's step-4 `try` block raised).
-/

/-- The fields `_parse_comprehensive_response` probes in the JSON object
extracted from the model's reply (`none` = key absent from the extracted
object, in particular all `none` when no JSON block could be extracted). -/
structure JsonFields where
  executive_summary : Option String := none
  risk_level : Option String := none
  security_analysis : Option String := none
  key_findings : Option (List String) := none
  recommendations : Option (List String) := none
  next_steps : Option (List String) := none
  confidence : Option String := none
  analysis_method : Option String := none
deriving DecidableEq, Repr

/-- An assessment dict as handled by the scheduler's step 4 (the
`nim_analysis` value).  `none` models an absent key, matching the
`key not in nim_analysis` membership tests.  Metadata keys not probed by any
consumer are omitted. -/
structure AssessDict where
  executive_summary : Option String := none
  risk_level : Option String := none
  security_analysis : Option String := none
  key_findings : Option (List String) := none
  recommendations : Option (List String) := none
  suggested_commands : Option (List String) := none
  next_steps : Option (List String) := none
  confidence : Option String := none
  analysis_method : Option String := none
deriving DecidableEq, Repr

/-- `NVIDIANIMClient._parse_comprehensive_response`: every probed field is
emitted with a `.get(..., default)` fallback, so all keys are present in the
result; no `suggested_commands` key is ever emitted.  (The source default for
`security_analysis` is an empty object, rendered here as the empty string.) -/
def parseComprehensiveResponse (j : JsonFields) : AssessDict :=
  { executive_summary := some (j.executive_summary.getD "Analysis completed")
    risk_level := some (j.risk_level.getD "Medium")
    security_analysis := some (j.security_analysis.getD "")
    key_findings := some (j.key_findings.getD [])
    recommendations := some (j.recommendations.getD [])
    suggested_commands := none
    next_steps := some (j.next_steps.getD [])
    confidence := some (j.confidence.getD "Medium")
    analysis_method := some (j.analysis_method.getD "NVIDIA NIM Analysis") }

/-!
## Rule-based command generation (`AnalysisScheduler._generate_security_commands`)
-/

/-- The block command emitted for one flagged address. -/
def blockCmd (ip : String) : String :=
  "iptables -A INPUT -s " ++ ip ++ " -j DROP"

/-- The verification / monitoring commands the generator can append (the two
verification commands of the threat branch and the monitoring command of the
no-threat branch). -/
def verificationCmds : List String :=
  ["iptables -L INPUT -n | grep DROP",
   "iptables-save > /etc/iptables/rules.v4",
   "iptables -L INPUT -n"]

/-- The `threat_indicators` lookup chain of the generator:
`analysis_data.get("current_period", \x7b\x7d).get("ip_analytics", \x7b\x7d)
.get("threat_indicators", \x7b\x7d)`. -/
def threatIndicatorsOf (d : AnalysisData) : ThreatIndicators :=
  d.current_period.ip_analytics.threat_indicators.getD {}

/-- The flagged addresses: `sorted(set(ssh_violators) | multi_sensor.keys())`.
`List.dedup` realises the set, `insertionSort` the (stable) ascending sort. -/
def flaggedIps (d : AnalysisData) : List String :=
  let ti := threatIndicatorsOf d
  ((ti.ssh_outside_budapest ++ ti.multiple_sensors.map Prod.fst).dedup).insertionSort
    (fun a b => a ≤ b)

/-- `AnalysisScheduler._generate_security_commands`: rule-derived assessment
data for the report, independent of the model.  One block command per flagged
address plus two verification commands when any address is flagged; a single
monitoring command otherwise. -/
def generateSecurityCommands (d : AnalysisData) : AssessDict :=
  let ti := threatIndicatorsOf d
  let ssh := ti.ssh_outside_budapest
  let multi := ti.multiple_sensors
  let suspicious := flaggedIps d
  if suspicious.isEmpty then
    { executive_summary :=
        some "No immediate security threats detected. System appears secure."
      risk_level := some "Low"
      security_analysis := some ("Automated analysis of Oracle Cloud logs identified "
        ++ toString suspicious.length
        ++ " suspicious IP addresses requiring immediate action.")
      key_findings := some
        ["No suspicious SSH attempts from outside Budapest",
         "No port scanning activity detected",
         "All traffic appears legitimate"]
      recommendations := some
        ["Continue monitoring with the commands provided below",
         "Review logs periodically for new threats",
         "Maintain current security posture"]
      suggested_commands := some ["iptables -L INPUT -n"]
      confidence := some "High"
      analysis_method := some "Automated Threat Detection" }
  else
    let commands := suspicious.map blockCmd
      ++ ["iptables -L INPUT -n | grep DROP",
          "iptables-save > /etc/iptables/rules.v4"]
    { executive_summary := some ("SECURITY ALERT: " ++ toString suspicious.length
        ++ " malicious IPs detected: " ++ String.intercalate ", " suspicious
        ++ ". Immediate blocking required.")
      risk_level := some "High"
      security_analysis := some ("Automated analysis of Oracle Cloud logs identified "
        ++ toString suspicious.length
        ++ " suspicious IP addresses requiring immediate action.")
      key_findings := some
        [if ssh.isEmpty then "No SSH attacks detected"
         else "SSH attacks from outside Budapest: " ++ String.intercalate ", " ssh,
         if multi.isEmpty then "No port scanning detected"
         else "Port scanning from: " ++ String.intercalate ", " (multi.map Prod.fst),
         "Total malicious IPs to block: " ++ toString suspicious.length]
      recommendations := some
        ["Execute the " ++ toString commands.length
          ++ " iptables commands below immediately",
         "Monitor /var/log/auth.log for continued attacks",
         "Consider implementing fail2ban for automated blocking"]
      suggested_commands := some commands
      confidence := some "High"
      analysis_method := some "Automated Threat Detection" }

/-- The comprehensive fallback assessment built in the scheduler's step-4
`except` block when the model call (or anything before it in the `try`
block) raised with message `e`.  Note: it carries no `suggested_commands`
key. -/
def fallbackNimAnalysis (e : String) : AssessDict :=
  { executive_summary := some ("AI analysis encountered an error: " ++ e
      ++ ". Manual review of log data is recommended.")
    risk_level := some "Unknown"
    security_analysis :=
      some "Automated security analysis was not completed due to service issues."
    key_findings := some
      ["AI analysis service unavailable",
       "Manual review required",
       "Error: " ++ e]
    recommendations := some
      ["Perform manual log analysis",
       "Check NVIDIA NIM service availability",
       "Review system connectivity and authentication"]
    suggested_commands := none
    next_steps := some
      ["Contact system administrator",
       "Review raw log data manually"]
    confidence := some "Low"
    analysis_method := some "Fallback - Service Error" }

/-- Step 4 of `AnalysisScheduler.run_analysis`: the assessment used for the
report.  On a successful model call the parsed reply always is a non-empty
dict, so the `if nim_analysis and isinstance(nim_analysis, dict)` guard
always takes its then-branch: the rule-generated commands overwrite
`suggested_commands`, and each of the four required keys is backfilled from
the rule-derived assessment only when absent (`key not in nim_analysis`).
On an exception the comprehensive fallback replaces the assessment
entirely. -/
def nimAnalysisOf (d : AnalysisData) (outcome : Except String JsonFields) : AssessDict :=
  match outcome with
  | .ok j =>
    let automated := generateSecurityCommands d
    let nim := parseComprehensiveResponse j
    let nim := { nim with suggested_commands := automated.suggested_commands }
    { nim with
      executive_summary := nim.executive_summary.or automated.executive_summary
      risk_level := nim.risk_level.or automated.risk_level
      key_findings := nim.key_findings.or automated.key_findings
      recommendations := nim.recommendations.or automated.recommendations }
  | .error e => fallbackNimAnalysis e

/-!
## Pipeline orchestrator (`AnalysisScheduler.run_analysis`)

The per-stage external outcomes of one run are collected in a `RunEnv`:
whether the capability handshake succeeded (step 1), the per-dimension and
per-address fetch outcomes (step 3), the model call outcome (step 4), the
markdown assembly outcome (step 5) and the upload configuration and outcome
(step 6).
-/

/-- External outcomes driving one invocation of `run_analysis`. -/
structure RunEnv where
  /-- step 1: `connections["mcp_connected"]`, the capability handshake -/
  mcpConnected : Bool
  countryOutcome : Except String GroupData
  cityOutcome : Except String GroupData
  sensorOutcome : Except String GroupData
  ispOutcome : Except String GroupData
  ipOutcome : Except String (List LogEntry)
  targetCountries : List String
  /-- step 4: the model call and reply parse (`error` = the `try` block raised) -/
  nimOutcome : Except String JsonFields
  /-- step 5: markdown generation, returning the report file path -/
  markdownOutcome : Except String String
  /-- step 6: is object storage configured (namespace and bucket set) -/
  ociConfigured : Bool
  /-- step 6: the upload attempt (`error` = it raised; `ok b` = success flag) -/
  uploadOutcome : Except String Bool
  /-- the timestamped report directory created at the top of the run -/
  reportDir : String

/-- The `data_summary` digest embedded in a successful run's result dict. -/
structure DataSummary where
  total_logs : Nat
  countries : Nat
  protocols : Nat
  time_range : String
deriving DecidableEq, Repr

/-- The result dict `run_analysis` returns and stores as
`last_analysis_result`.  Keys absent on one of the two paths are `Option`
fields. -/
structure RunResult where
  success : Bool
  error : Option String := none
  report_path : Option String := none
  uploaded_to_oci : Option Bool := none
  /-- the `connections` sub-dict's `mcp_connected` flag -/
  mcp_connected : Bool
  data_summary : Option DataSummary := none
deriving DecidableEq, Repr

/-- Everything observable about one run: the returned result dict, the
assessment passed to report generation (`none` when the run aborted before
step 4), and the fallback artifact (serialized analysis data plus assessment)
written when markdown assembly failed. -/
structure RunOutcome where
  result : RunResult
  assessment : Option AssessDict
  fallbackReport : Option (AnalysisData × AssessDict)
deriving DecidableEq, Repr

/-- Step 6: `upload_success` is initialised `False`, set only when object
storage is configured and the upload call returns; an exception during upload
is caught and leaves it `False`. -/
def uploadSuccess (env : RunEnv) : Bool :=
  if env.ociConfigured then
    match env.uploadOutcome with
    | .ok b => b
    | .error _ => false
  else false

/-- The comprehensive analysis data gathered in step 3 of a run. -/
def analysisDataOf (env : RunEnv) : AnalysisData :=
  prepareComprehensiveAnalysis env.countryOutcome env.cityOutcome
    env.sensorOutcome env.ispOutcome env.ipOutcome env.targetCountries

/-- The assessment computed in step 4 of a run. -/
def runAssessment (env : RunEnv) : AssessDict :=
  nimAnalysisOf (analysisDataOf env) env.nimOutcome

/-- `AnalysisScheduler.run_analysis`.  A failed handshake returns the failure
dict immediately; otherwise the run always reaches the success dict: step 4
falls back internally, a step-5 failure degrades to the fallback JSON
artifact in the report directory, and a step-6 failure only clears the upload
flag.  (The write of the fallback artifact itself and the in-run wall-clock
values are not modelled.) -/
def runAnalysis (env : RunEnv) : RunOutcome :=
  if env.mcpConnected = false then
    { result :=
        { success := false
          error := some "Cannot proceed without MCP server connection"
          mcp_connected := false }
      assessment := none
      fallbackReport := none }
  else
    let d := analysisDataOf env
    let nim := runAssessment env
    let stats := d.summary_statistics
    let summary : DataSummary :=
      { total_logs := stats.total_requests
        countries := stats.unique_countries
        protocols := stats.unique_sensors
        time_range := d.current_period.time_range }
    match env.markdownOutcome with
    | .ok path =>
      { result :=
          { success := true
            report_path := some path
            uploaded_to_oci := some (uploadSuccess env)
            mcp_connected := true
            data_summary := some summary }
        assessment := some nim
        fallbackReport := none }
    | .error _ =>
      { result :=
          { success := true
            report_path := some (env.reportDir ++ "/fallback_analysis.json")
            uploaded_to_oci := some (uploadSuccess env)
            mcp_connected := true
            data_summary := some summary }
        assessment := some nim
        fallbackReport := some (d, nim) }

/-- Scheduler-level state shared with status callers: the loop flag and the
single last-result slot. -/
structure SchedulerState where
  is_running : Bool
  last_analysis_result : Option RunResult
deriving DecidableEq, Repr

/-- `AnalysisScheduler.run_manual_analysis`: the manual trigger simply awaits
`run_analysis` — it performs no single-flight check of any kind.
`run_analysis` assigns `self.last_analysis_result` only on the paths that
build the success dict or the outer-exception dict; the handshake-failure
early return skips the assignment, leaving the previously stored result in
place. -/
def runManualAnalysis (s : SchedulerState) (env : RunEnv) :
    SchedulerState × RunOutcome :=
  let out := runAnalysis env
  if env.mcpConnected = false then (s, out)
  else ({ s with last_analysis_result := some out.result }, out)

/-!
## HTTP trigger endpoints (`app/api/routes.py`)

Both POST endpoints share the module-level `status` dict and guard on its
`running` flag.  The worker thread a trigger starts is modelled by its final
effect on the status dict (given the outcome of the operation it performs).
-/

/-- The module-level `status` dict. -/
structure WebStatus where
  running : Bool
  message : String
  progress : Nat
  error : Option String := none
  results : Option GroupData := none
deriving DecidableEq, Repr

/-- What a trigger endpoint returns to its caller. -/
inductive TriggerReply where
  /-- the `\x7b"message": ...\x7d` acknowledgement -/
  | started (msg : String)
  /-- the `\x7b"error": "Already running"\x7d` refusal -/
  | alreadyRunning
deriving DecidableEq, Repr

/-- `POST /test-mcp`: refuse when a run is in progress, otherwise start the
test worker (shown here with its final status update for connection outcome
`tcOutcome`). -/
def testMcpEndpoint (st : WebStatus) (tcOutcome : Except String Bool) :
    WebStatus × TriggerReply :=
  if st.running then (st, .alreadyRunning)
  else
    match tcOutcome with
    | .ok true =>
      ({ st with running := false, message := "✅ MCP Test Successful!",
                 progress := 100, error := none }, .started "Test started")
    | .ok false =>
      ({ st with running := false, message := "❌ MCP Test Failed",
                 progress := 0, error := some "Connection test failed" },
       .started "Test started")
    | .error e =>
      ({ st with running := false, message := "❌ Test Error",
                 progress := 0, error := some e }, .started "Test started")

/-- `POST /get-analytics`: same single-flight guard, analytics worker. -/
def getAnalyticsEndpoint (st : WebStatus) (gaOutcome : Except String GroupData) :
    WebStatus × TriggerReply :=
  if st.running then (st, .alreadyRunning)
  else
    match gaOutcome with
    | .ok r =>
      match r.error with
      | some e =>
        ({ st with running := false, message := "❌ Analytics Failed",
                   progress := 0, error := some e }, .started "Analytics started")
      | none =>
        ({ st with running := false, message := "✅ Analytics Complete!",
                   progress := 100, error := none, results := some r },
         .started "Analytics started")
    | .error e =>
      ({ st with running := false, message := "❌ Analytics Error",
                 progress := 0, error := some e }, .started "Analytics started")

/-!
## Sample inputs used by witnesses and counterexamples
-/

/-- Sample statistics record (all sample analytics empty). -/
def statsSample : SummaryStats :=
  { total_requests := 0, unique_countries := 0, unique_cities := 0,
    unique_sensors := 0, unique_isps := 0, unique_ips := 0, top_ips := [] }

/-- Sample address analytics carrying one flagged address (an `ip_analytics`
dict as a hypothetical producer with threat indicators would emit it). -/
def ipaFlaggedSample : IpAnalytics :=
  { ip_distribution := [], ip_by_country := [], ip_by_sensor := [],
    ip_by_city := [], total_unique_ips := 0,
    threat_indicators := some { ssh_outside_budapest := ["203.0.113.9"] } }

/-- Sample analysis data with one flagged address. -/
def dSample : AnalysisData :=
  { current_period :=
      { country_analytics := {}, city_analytics := {}, sensor_analytics := {},
        isp_analytics := {}, time_range := "1h", ip_analytics := ipaFlaggedSample }
    summary_statistics := statsSample
    target_countries := [] }

/-- A run in which everything is reachable but the model call raises. -/
def envNimRaises : RunEnv :=
  { mcpConnected := true
    countryOutcome := .ok {}
    cityOutcome := .ok {}
    sensorOutcome := .ok {}
    ispOutcome := .ok {}
    ipOutcome := .ok []
    targetCountries := []
    nimOutcome := .error "NIM request failed"
    markdownOutcome := .ok "reports/sybylla-1/report.md"
    ociConfigured := false
    uploadOutcome := .ok false
    reportDir := "reports/sybylla-1" }

/-- A run in which every stage succeeds (used to exercise the manual
trigger). -/
def envAllOk : RunEnv :=
  { mcpConnected := true
    countryOutcome := .ok {}
    cityOutcome := .ok {}
    sensorOutcome := .ok {}
    ispOutcome := .ok {}
    ipOutcome := .ok []
    targetCountries := []
    nimOutcome := .ok {}
    markdownOutcome := .ok "reports/sybylla-2/report.md"
    ociConfigured := true
    uploadOutcome := .ok true
    reportDir := "reports/sybylla-2" }

/-- The per-dimension outcomes of a snapshot in which the geography query
fails and the other dimensions succeed. -/
def fSample : Dim → Except String GroupData
  | .country => Except.error "query timed out"
  | _ => Except.ok {}

/-- A run whose capability handshake fails (the backend process exited
non-zero, so `test_connections` reports no MCP connection). -/
def envHandshakeFails : RunEnv :=
  { mcpConnected := false
    countryOutcome := .error "unreachable"
    cityOutcome := .error "unreachable"
    sensorOutcome := .error "unreachable"
    ispOutcome := .error "unreachable"
    ipOutcome := .error "unreachable"
    targetCountries := []
    nimOutcome := .error "not attempted"
    markdownOutcome := .error "not attempted"
    ociConfigured := false
    uploadOutcome := .error "not attempted"
    reportDir := "reports/sybylla-3" }

/-- A run that reaches report assembly, where assembly and upload both
fail. -/
def envAssemblyFails : RunEnv :=
  { mcpConnected := true
    countryOutcome := .ok {}
    cityOutcome := .ok {}
    sensorOutcome := .ok {}
    ispOutcome := .ok {}
    ipOutcome := .ok []
    targetCountries := []
    nimOutcome := .ok {}
    markdownOutcome := .error "chart rendering failed"
    ociConfigured := true
    uploadOutcome := .error "no network route"
    reportDir := "reports/sybylla-4" }

/-- A backend reply whose reported total disagrees with its distribution's
sum. -/
def gCountryMismatch : GroupData :=
  { distribution := some [("US", 7), ("DE", 3)], total_requests := some 7 }

/-- Consistent sample backend replies for the C9 witness. -/
def gConsistentA : GroupData :=
  { distribution := some [("US", 7), ("DE", 3)], total_requests := some 10 }

/-- Consistent single-bucket sample reply. -/
def gConsistentB : GroupData :=
  { distribution := some [("all", 10)], total_requests := some 10 }

/-- Two sample log rows for the address fetch. -/
def logsSample : List LogEntry :=
  [{ ip := some "198.51.100.7" }, { ip := some "198.51.100.8" }]

theorem mem_uniqueKeys {α : Type} [DecidableEq α] {k : α} :
    ∀ {l : List α}, k ∈ uniqueKeys l ↔ k ∈ l
  | [] => Iff.rfl
  | x :: xs => by
    simp only [uniqueKeys, List.mem_cons, List.mem_filter, bne_iff_ne]
    constructor
    · rintro (rfl | ⟨hk, _⟩)
      · exact Or.inl rfl
      · exact Or.inr (mem_uniqueKeys.mp hk)
    · rintro (rfl | hk)
      · exact Or.inl rfl
      · by_cases hx : k = x
        · exact Or.inl hx
        · exact Or.inr ⟨mem_uniqueKeys.mpr hk, hx⟩

theorem nodup_uniqueKeys {α : Type} [DecidableEq α] :
    ∀ (l : List α), (uniqueKeys l).Nodup
  | [] => List.nodup_nil
  | x :: xs => by
    simp only [uniqueKeys]
    refine List.Nodup.cons ?_ ((nodup_uniqueKeys xs).filter _)
    intro hx
    rcases List.mem_filter.mp hx with ⟨-, hne⟩
    exact (bne_iff_ne.mp hne) rfl

/-- Splitting a sum of values over a list into the part at one key and the
rest. -/
theorem sum_map_eq_filter_add {α : Type} [DecidableEq α] (f : α → Nat) (x : α) :
    ∀ (u : List α),
      ((u.map f).sum = (((u.filter fun y => y != x).map f).sum) + u.count x * f x)
  | [] => by simp
  | y :: ys => by
    by_cases h : y = x
    · subst h
      rw [List.filter_cons_of_neg (by simp), List.map_cons, List.sum_cons,
        List.count_cons_self, sum_map_eq_filter_add f y ys]
      ring
    · have hb : (y != x) = true := bne_iff_ne.mpr h
      have hstep : List.filter (fun y => y != x) (y :: ys)
          = y :: List.filter (fun y => y != x) ys := by
        simp [List.filter_cons, hb]
      rw [hstep, List.map_cons, List.map_cons, List.sum_cons,
        List.sum_cons, List.count_cons_of_ne (Ne.symm h), sum_map_eq_filter_add f x ys]
      ring

/-- The values of a `Counter` built from a list sum to the list's length. -/
theorem sum_counts_uniqueKeys {α : Type} [DecidableEq α] :
    ∀ (l : List α), ((uniqueKeys l).map fun k => l.count k).sum = l.length
  | [] => rfl
  | x :: xs => by
    have hcongr :
        ((uniqueKeys xs).filter (fun y => y != x)).map (fun k => (x :: xs).count k)
          = ((uniqueKeys xs).filter (fun y => y != x)).map (fun k => xs.count k) := by
      refine List.map_congr_left ?_
      intro k hk
      rcases List.mem_filter.mp hk with ⟨-, hne⟩
      exact List.count_cons_of_ne (bne_iff_ne.mp hne) _
    have hsplit := sum_map_eq_filter_add (fun k => xs.count k) x (uniqueKeys xs)
    have hih := sum_counts_uniqueKeys xs
    have hcnt : (uniqueKeys xs).count x * xs.count x = xs.count x := by
      by_cases hx : x ∈ xs
      · rw [List.count_eq_one_of_mem (nodup_uniqueKeys xs) (mem_uniqueKeys.mpr hx), one_mul]
      · have : xs.count x = 0 := List.count_eq_zero.mpr hx
        rw [this, Nat.mul_zero]
    simp only [uniqueKeys, List.map_cons, List.sum_cons, List.count_cons_self,
      hcongr, List.length_cons]
    omega

theorem requestTrace_id_gt (st : MCPClientState) :
    ∀ (ms : List String) (r : RpcRequest), r ∈ requestTrace st ms → st.request_id < r.id := by
  intro ms
  induction ms generalizing st with
  | nil => intro r hr; cases hr
  | cons m ms ih =>
    intro r hr
    rcases List.mem_cons.mp hr with rfl | hr
    · exact Nat.lt_succ_self _
    · exact Nat.lt_of_succ_lt (ih { request_id := st.request_id + 1 } r hr)

/-!
## Supporting lemmas
-/

theorem blockCmd_injective : Function.Injective blockCmd := by
  intro a b h
  have hd := congrArg String.data h
  simp only [blockCmd, String.data_append] at hd
  exact String.ext (List.append_cancel_left (List.append_cancel_right hd))

theorem blockCmd_data (ip : String) :
    (blockCmd ip).data
      = "iptables -A INPUT -s ".data ++ (ip.data ++ " -j DROP".data) := by
  simp [blockCmd, List.append_assoc]

theorem blockCmd_get8 (ip : String) : (blockCmd ip).data[8]? = some ' ' := by
  rw [blockCmd_data, List.getElem?_append_left (by decide)]
  rfl

theorem blockCmd_get10 (ip : String) : (blockCmd ip).data[10]? = some 'A' := by
  rw [blockCmd_data, List.getElem?_append_left (by decide)]
  rfl

theorem blockCmd_length (ip : String) : (blockCmd ip).length = 29 + ip.length := by
  simp only [blockCmd, String.length_append]
  have h1 : "iptables -A INPUT -s ".length = 21 := rfl
  have h2 : " -j DROP".length = 8 := rfl
  rw [h1, h2]
  omega

theorem blockCmd_ne_verification (ip : String) :
    ∀ v ∈ verificationCmds, blockCmd ip ≠ v := by
  intro v hv
  rcases List.mem_cons.mp hv with rfl | hv
  · intro h
    have h10 : (blockCmd ip).data[10]? = "iptables -L INPUT -n | grep DROP".data[10]? := by
      rw [h]
    rw [blockCmd_get10 ip] at h10
    exact absurd h10 (by decide)
  rcases List.mem_cons.mp hv with rfl | hv
  · intro h
    have h8 : (blockCmd ip).data[8]? = "iptables-save > /etc/iptables/rules.v4".data[8]? := by
      rw [h]
    rw [blockCmd_get8 ip] at h8
    exact absurd h8 (by decide)
  rcases List.mem_cons.mp hv with rfl | hv
  · intro h
    have hl := congrArg String.length h
    rw [blockCmd_length ip] at hl
    have : (20 : Nat) = 29 + ip.length := by
      simpa using hl.symm
    omega
  · cases hv

theorem flaggedIps_nodup (d : AnalysisData) : (flaggedIps d).Nodup := by
  unfold flaggedIps
  exact ((List.perm_insertionSort _ _).nodup_iff).mpr (List.nodup_dedup _)

/-!
## Claim theorems
-/

/-- C5: for every sequence of requests issued through one Protocol Client
instance, the correlation id assigned to each outbound request is strictly
greater than every id previously assigned by that instance (the id counter is
incremented before anything else in `_call_server_simple`, so this holds
whatever each call's transport outcome is), hence the ids are unique over the
client's lifetime. -/
theorem correlation_ids_strictly_increase (st : MCPClientState) (ms : List String) :
    (requestTrace st ms).Pairwise (fun a b => a.id < b.id) := by
  induction ms generalizing st with
  | nil => exact List.Pairwise.nil
  | cons m ms ih =>
    refine List.Pairwise.cons ?_ (ih _)
    intro r hr
    exact requestTrace_id_gt { request_id := st.request_id + 1 } ms r hr

/-- C3, counterexample: a backend output with two lines that both parse as
response objects (left brace, protocol tag, a `result` key).  The claim says
the LAST such line is returned; `_call_server_simple` returns from the loop
at the FIRST such line. -/
theorem scan_returns_first_line_not_last :
    scanStdout
        [{ startsLbrace := true, hasJsonrpcTag := true,
           parses := some { id := some 2, result := some "first response" } },
         { startsLbrace := true, hasJsonrpcTag := true,
           parses := some { id := some 2, result := some "second response" } }]
      = { id := some 2, result := some "first response", error := none }
    ∧ ({ id := some 2, result := some "first response", error := none } : RpcMsg)
      ≠ { id := some 2, result := some "second response", error := none } := by
  exact ⟨by decide, by decide⟩

/-- C3, amended: the per-call routine scans the output lines in order and
returns the parse of the FIRST line that starts with a left brace, contains
the protocol-version tag text and parses as JSON (no `result`/`error` key is
required by the selection test), tolerating any surrounding noise lines; if
no line qualifies, the no-response error dict is returned. -/
theorem scanStdout_first_candidate (lines : List OutLine) :
    scanStdout lines = (candidateParses lines).headD (errDict "No valid JSON response") := by
  induction lines with
  | nil => rfl
  | cons l rest ih =>
    simp only [scanStdout, candidateParses, List.filterMap_cons]
    cases hc : l.isCandidate
    · simpa [hc, candidateParses] using ih
    · cases hp : l.parses
      · simpa [hc, hp, candidateParses] using ih
      · simp [hc, hp]

/-- C1, counterexample: a complete analysis run in which the model call
raises.  The except-branch fallback assessment is attached to the run and it
carries no suggested-commands key at all, refuting "for every analysis run,
the suggested remediation-command list attached to the final assessment ...
is always non-empty". -/
theorem commands_absent_on_model_exception :
    (runAnalysis envNimRaises).assessment
        = some (fallbackNimAnalysis "NIM request failed")
    ∧ (fallbackNimAnalysis "NIM request failed").suggested_commands = none := by
  exact ⟨rfl, rfl⟩

/-- C1 (amended): on every analysis run whose model step completes without
raising (including replies from which no JSON can be extracted), the
suggested command list attached to the final assessment equals the
rule-generated list — overwriting whatever the model proposed, independent of
the parsed reply `j` — and that list is non-empty, contains exactly one block
command per flagged address, contains at least one verification/monitoring
command (also when zero addresses are flagged), and contains nothing except
block commands for flagged addresses and verification commands.  When the
model step raises, the fallback assessment carries no command list (see the
counterexample). -/
theorem commands_rule_generated (d : AnalysisData) (j : JsonFields) :
    (nimAnalysisOf d (Except.ok j)).suggested_commands
        = (generateSecurityCommands d).suggested_commands
    ∧ ∃ cmds, (nimAnalysisOf d (Except.ok j)).suggested_commands = some cmds
        ∧ cmds ≠ []
        ∧ (∀ ip ∈ flaggedIps d, cmds.count (blockCmd ip) = 1)
        ∧ (∃ c ∈ cmds, c ∈ verificationCmds)
        ∧ (∀ c ∈ cmds, (∃ ip ∈ flaggedIps d, c = blockCmd ip) ∨ c ∈ verificationCmds) := by
  have hcmd : (nimAnalysisOf d (Except.ok j)).suggested_commands
      = (generateSecurityCommands d).suggested_commands := by
    simp [nimAnalysisOf]
  refine ⟨hcmd, ?_⟩
  by_cases hs : (flaggedIps d).isEmpty
  · refine ⟨["iptables -L INPUT -n"], ?_, ?_, ?_, ?_, ?_⟩
    · rw [hcmd]
      simp [generateSecurityCommands, hs]
    · simp
    · intro ip hip
      rw [List.isEmpty_iff.mp hs] at hip
      cases hip
    · exact ⟨"iptables -L INPUT -n", by simp, by simp [verificationCmds]⟩
    · intro c hc
      rcases List.mem_singleton.mp hc with rfl
      exact Or.inr (by simp [verificationCmds])
  · refine ⟨(flaggedIps d).map blockCmd
        ++ ["iptables -L INPUT -n | grep DROP",
            "iptables-save > /etc/iptables/rules.v4"], ?_, ?_, ?_, ?_, ?_⟩
    · rw [hcmd]
      simp [generateSecurityCommands, hs]
    · simp
    · intro ip hip
      rw [List.count_append]
      have h1 : ((flaggedIps d).map blockCmd).count (blockCmd ip) = 1 := by
        rw [List.count_map_of_injective _ blockCmd blockCmd_injective]
        exact List.count_eq_one_of_mem (flaggedIps_nodup d) hip
      have h2 : (["iptables -L INPUT -n | grep DROP",
          "iptables-save > /etc/iptables/rules.v4"] : List String).count (blockCmd ip) = 0 := by
        refine List.count_eq_zero.mpr ?_
        intro hm
        rcases List.mem_cons.mp hm with he | hm
        · exact blockCmd_ne_verification ip _ (by simp [verificationCmds]) he
        rcases List.mem_cons.mp hm with he | hm
        · exact blockCmd_ne_verification ip _ (by simp [verificationCmds]) he
        · cases hm
      omega
    · exact ⟨"iptables -L INPUT -n | grep DROP",
        List.mem_append_right _ (by simp), by simp [verificationCmds]⟩
    · intro c hc
      rcases List.mem_append.mp hc with hc | hc
      · rcases List.mem_map.mp hc with ⟨ip, hip, rfl⟩
        exact Or.inl ⟨ip, hip, rfl⟩
      · refine Or.inr ?_
        rcases List.mem_cons.mp hc with rfl | hc
        · simp [verificationCmds]
        rcases List.mem_cons.mp hc with rfl | hc
        · simp [verificationCmds]
        · cases hc

/-- C1, witness: the amended theorem applied to the sample data with one
flagged address and an empty parsed reply. -/
theorem commands_rule_generated_witness :
    ∃ cmds, (nimAnalysisOf dSample (Except.ok {})).suggested_commands = some cmds
      ∧ cmds.count (blockCmd "203.0.113.9") = 1 ∧ cmds ≠ [] := by
  obtain ⟨-, cmds, hsome, hne, hcount, -, -⟩ := commands_rule_generated dSample {}
  exact ⟨cmds, hsome, hcount "203.0.113.9" (by decide), hne⟩

/-- C2, counterexample: a model reply from which no JSON can be extracted
parses to the empty field record.  The assessment returned by step 4 then has
`key_findings` and `recommendations` present but EMPTY: the scheduler's
backfill tests `key not in nim_analysis` and the parser always emits the
keys, so the non-empty rule-derived values (available at that moment) are not
copied in — refuting "all required fields ... present and non-empty". -/
theorem assessment_fields_empty_on_json_failure :
    (nimAnalysisOf dSample (Except.ok {})).key_findings = some []
    ∧ (nimAnalysisOf dSample (Except.ok {})).recommendations = some []
    ∧ (generateSecurityCommands dSample).key_findings ≠ some []
    ∧ (generateSecurityCommands dSample).recommendations ≠ some [] := by
  refine ⟨rfl, rfl, ?_, ?_⟩ <;> decide

/-- C2 (amended): the risk-assessment step always returns a record in which
all four required fields are PRESENT.  When the model call raises, the
fallback populates all four non-empty.  When it completes, each required
field equals the parser's value — a field missing from the extracted JSON is
backfilled with the parser's default ("Analysis completed", "Medium", empty
list, empty list), not from the rule-derived assessment: the scheduler's
merge loop never fires because the parser always emits the keys.  Hence
`key_findings`/`recommendations` can be returned empty. -/
theorem assessment_required_fields (d : AnalysisData)
    (outcome : Except String JsonFields) :
    ((nimAnalysisOf d outcome).executive_summary.isSome
      ∧ (nimAnalysisOf d outcome).risk_level.isSome
      ∧ (nimAnalysisOf d outcome).key_findings.isSome
      ∧ (nimAnalysisOf d outcome).recommendations.isSome)
    ∧ (∀ e, outcome = Except.error e →
        (nimAnalysisOf d outcome).executive_summary ≠ some ""
        ∧ (nimAnalysisOf d outcome).risk_level = some "Unknown"
        ∧ (nimAnalysisOf d outcome).key_findings ≠ some []
        ∧ (nimAnalysisOf d outcome).recommendations ≠ some [])
    ∧ (∀ j, outcome = Except.ok j →
        (nimAnalysisOf d outcome).executive_summary
            = some (j.executive_summary.getD "Analysis completed")
        ∧ (nimAnalysisOf d outcome).risk_level = some (j.risk_level.getD "Medium")
        ∧ (nimAnalysisOf d outcome).key_findings = some (j.key_findings.getD [])
        ∧ (nimAnalysisOf d outcome).recommendations
            = some (j.recommendations.getD [])) := by
  refine ⟨?_, ?_, ?_⟩
  · cases outcome with
    | ok j => simp [nimAnalysisOf, parseComprehensiveResponse]
    | error e => simp [nimAnalysisOf, fallbackNimAnalysis]
  · rintro e rfl
    refine ⟨?_, rfl, ?_, ?_⟩
    · intro h
      have hlen := congrArg String.length (Option.some.inj h)
      rw [String.length_append, String.length_append] at hlen
      have h1 : "AI analysis encountered an error: ".length = 34 := rfl
      have h2 : ". Manual review of log data is recommended.".length = 43 := rfl
      have h3 : "".length = 0 := rfl
      omega
    · intro h
      have := congrArg List.length (Option.some.inj h)
      simp at this
    · intro h
      have := congrArg List.length (Option.some.inj h)
      simp at this
  · rintro j rfl
    simp [nimAnalysisOf, parseComprehensiveResponse]

/-- C2, witness: the amended theorem applied to a concrete raising model call
and a concrete successful one. -/
theorem assessment_required_fields_witness :
    (nimAnalysisOf dSample (Except.error "boom")).risk_level = some "Unknown"
    ∧ (nimAnalysisOf dSample (Except.ok {})).risk_level = some "Medium" := by
  refine ⟨?_, ?_⟩
  · exact ((assessment_required_fields dSample (Except.error "boom")).2.1 "boom" rfl).2.1
  · have h := ((assessment_required_fields dSample (Except.ok {})).2.2 {} rfl).2.1
    simpa using h

/-- C4, counterexample: with the scheduler flag set, the manual-analysis
entry point does not return an already-running signal — it has no check at
all: it executes a full run (here succeeding) and overwrites the stored last
result, refuting "every trigger of a new run — via the HTTP trigger endpoints
or the manual-analysis entry point — returns an 'already running' signal
[and] leaves the state unchanged". -/
theorem manual_trigger_runs_while_running :
    (runManualAnalysis { is_running := true, last_analysis_result := none }
        envAllOk).2.result.success = true
    ∧ (runManualAnalysis { is_running := true, last_analysis_result := none }
        envAllOk).1
      ≠ { is_running := true, last_analysis_result := none } := by
  exact ⟨rfl, by decide⟩

/-- C4 (amended): the HTTP trigger endpoints do enforce single flight on the
shared web status — while its `running` flag is set they return the
already-running signal and leave the status dict unchanged — but the
scheduler's manual-analysis entry point performs no single-flight check:
whatever the scheduler state, it executes `run_analysis` and returns that
run's outcome.  A run that proceeds past the handshake stores exactly one
result record as the last result by a single assignment; a run aborted at
the handshake stores nothing, leaving the scheduler state (and hence the
previously recorded last result) unchanged. -/
theorem single_flight_endpoints_only (st : WebStatus) (tc : Except String Bool)
    (ga : Except String GroupData) (s : SchedulerState) (env : RunEnv)
    (h : st.running = true) :
    testMcpEndpoint st tc = (st, TriggerReply.alreadyRunning)
    ∧ getAnalyticsEndpoint st ga = (st, TriggerReply.alreadyRunning)
    ∧ (runManualAnalysis s env).2 = runAnalysis env
    ∧ (env.mcpConnected = true →
        (runManualAnalysis s env).1
          = { s with last_analysis_result := some (runAnalysis env).result })
    ∧ (env.mcpConnected = false → (runManualAnalysis s env).1 = s) := by
  refine ⟨?_, ?_, ?_, ?_, ?_⟩
  · simp [testMcpEndpoint, h]
  · simp [getAnalyticsEndpoint, h]
  · unfold runManualAnalysis
    split <;> rfl
  · intro hm
    simp [runManualAnalysis, hm]
  · intro hm
    simp [runManualAnalysis, hm]

/-- C4, witness: the amended theorem applied to a busy web status, a run
that proceeds past the handshake, and a run aborted at the handshake. -/
theorem single_flight_endpoints_only_witness :
    testMcpEndpoint { running := true, message := "Testing...", progress := 50 }
        (Except.ok true)
      = ({ running := true, message := "Testing...", progress := 50 },
         TriggerReply.alreadyRunning)
    ∧ (runManualAnalysis { is_running := false, last_analysis_result := none }
        envAllOk).1.last_analysis_result
      = some (runAnalysis envAllOk).result
    ∧ (runManualAnalysis { is_running := true, last_analysis_result := none }
        envHandshakeFails).1
      = { is_running := true, last_analysis_result := none } := by
  have h := single_flight_endpoints_only
    { running := true, message := "Testing...", progress := 50 }
    (Except.ok true) (Except.ok {})
    { is_running := false, last_analysis_result := none } envAllOk rfl
  have h2 := single_flight_endpoints_only
    { running := true, message := "Testing...", progress := 50 }
    (Except.ok true) (Except.ok {})
    { is_running := true, last_analysis_result := none } envHandshakeFails rfl
  refine ⟨h.1, ?_, h2.2.2.2.2 rfl⟩
  rw [h.2.2.2.1 rfl]

/-- C6: if one grouping-dimension query fails with message `e` while every
other dimension succeeds, the aggregator still assembles the snapshot (the
assembly is a total function — the per-dimension methods catch all their
exceptions): the failed dimension carries an empty distribution and the
recorded partial-failure note, every other dimension's data is intact, and
the per-address fetch degrades the same way on failure. -/
theorem dimension_failure_absorbed (f : Dim → Except String GroupData)
    (d0 : Dim) (e : String) (g : Dim → GroupData)
    (hfail : f d0 = Except.error e)
    (hok : ∀ d, d ≠ d0 → f d = Except.ok (g d)) :
    (distributionOf ((multiDimensionalData (f .country) (f .city) (f .sensor)
          (f .isp) "1h").dim d0) = []
      ∧ ((multiDimensionalData (f .country) (f .city) (f .sensor)
          (f .isp) "1h").dim d0).error = some e)
    ∧ (∀ d, d ≠ d0 →
        (multiDimensionalData (f .country) (f .city) (f .sensor)
          (f .isp) "1h").dim d = g d)
    ∧ (∀ e2, getIpAnalytics (Except.error e2)
        = { ip_distribution := [], ip_by_country := [], ip_by_sensor := [],
            ip_by_city := [], total_unique_ips := 0, error := some e2 }) := by
  have hd : ∀ d, (multiDimensionalData (f .country) (f .city) (f .sensor)
      (f .isp) "1h").dim d = fetchGroup (f d) := by
    intro d
    cases d <;> rfl
  refine ⟨?_, ?_, ?_⟩
  · rw [hd d0, hfail]
    exact ⟨rfl, rfl⟩
  · intro d hne
    rw [hd d, hok d hne]
    rfl
  · intro e2
    rfl

/-- C6, witness: the theorem applied to a snapshot whose geography query
timed out while the other dimensions succeeded. -/
theorem dimension_failure_absorbed_witness :
    distributionOf ((multiDimensionalData (fSample .country) (fSample .city)
        (fSample .sensor) (fSample .isp) "1h").dim Dim.country) = []
    ∧ ((multiDimensionalData (fSample .country) (fSample .city)
        (fSample .sensor) (fSample .isp) "1h").dim Dim.sensor) = {} := by
  have h := dimension_failure_absorbed fSample Dim.country "query timed out"
    (fun _ => {}) rfl (by
      intro d hd
      cases d
      · exact absurd rfl hd
      all_goals rfl)
  exact ⟨h.1.1, h.2.1 Dim.sensor (by decide)⟩

/-- C7: a run whose capability handshake fails terminates immediately with
the failure result: no snapshot digest, report path, upload flag, assessment
or fallback artifact is attached, and the recorded error is the fixed
backend-connection (transport) failure message, with the connection record
showing the failed handshake. -/
theorem handshake_failure_fatal (env : RunEnv) (h : env.mcpConnected = false) :
    (runAnalysis env).result.success = false
    ∧ (runAnalysis env).result.error
        = some "Cannot proceed without MCP server connection"
    ∧ (runAnalysis env).result.mcp_connected = false
    ∧ (runAnalysis env).result.data_summary = none
    ∧ (runAnalysis env).result.report_path = none
    ∧ (runAnalysis env).result.uploaded_to_oci = none
    ∧ (runAnalysis env).assessment = none
    ∧ (runAnalysis env).fallbackReport = none := by
  simp [runAnalysis, h]

/-- C7, witness: the theorem applied to a run whose backend process exited
non-zero. -/
theorem handshake_failure_fatal_witness :
    (runAnalysis envHandshakeFails).result.success = false
    ∧ (runAnalysis envHandshakeFails).assessment = none := by
  have h := handshake_failure_fatal envHandshakeFails rfl
  exact ⟨h.1, h.2.2.2.2.2.2.1⟩

/-- C8: every run that reaches report assembly (the handshake succeeded)
reports success whatever the assembly and upload outcomes; on an assembly
failure the minimal fallback artifact — the serialized analysis data plus the
assessment — is written and the report path points at the fallback JSON file;
an upload failure only leaves the upload flag false. -/
theorem assembly_upload_failures_nonfatal (env : RunEnv)
    (h : env.mcpConnected = true) :
    (runAnalysis env).result.success = true
    ∧ (∀ e, env.markdownOutcome = Except.error e →
        (runAnalysis env).fallbackReport
            = some (analysisDataOf env, runAssessment env)
        ∧ (runAnalysis env).result.report_path
            = some (env.reportDir ++ "/fallback_analysis.json"))
    ∧ (∀ e, env.uploadOutcome = Except.error e →
        (runAnalysis env).result.uploaded_to_oci = some false) := by
  have hne : ¬ env.mcpConnected = false := by simp [h]
  rcases hmd : env.markdownOutcome with p | p
  · refine ⟨?_, ?_, ?_⟩
    · simp [runAnalysis, hne, hmd]
    · intro e he
      exact ⟨by simp [runAnalysis, hne, hmd], by simp [runAnalysis, hne, hmd]⟩
    · intro e he
      cases hoci : env.ociConfigured <;>
        simp [runAnalysis, hne, hmd, uploadSuccess, hoci, he]
  · refine ⟨?_, ?_, ?_⟩
    · simp [runAnalysis, hne, hmd]
    · intro e he
      simp at he
    · intro e he
      cases hoci : env.ociConfigured <;>
        simp [runAnalysis, hne, hmd, uploadSuccess, hoci, he]

/-- C8, witness: the theorem applied to a run where assembly and upload both
fail, which still succeeds with the fallback artifact path recorded. -/
theorem assembly_upload_failures_nonfatal_witness :
    (runAnalysis envAssemblyFails).result.success = true
    ∧ (runAnalysis envAssemblyFails).result.report_path
        = some "reports/sybylla-4/fallback_analysis.json"
    ∧ (runAnalysis envAssemblyFails).result.uploaded_to_oci = some false := by
  obtain ⟨h1, h2, h3⟩ := assembly_upload_failures_nonfatal envAssemblyFails rfl
  exact ⟨h1, (h2 "chart rendering failed" rfl).2, h3 "no network route" rfl⟩

/-- The locally built address distribution sums to the number of log rows it
was built from: each processed row increments exactly one counter entry, and
`most_common` only permutes the entries. -/
theorem ipDistribution_sum (logs : List LogEntry) :
    distSum (analyzeIpAddresses logs).ip_distribution = logs.length := by
  by_cases hl : logs.isEmpty
  · rw [List.isEmpty_iff.mp hl]
    rfl
  · unfold analyzeIpAddresses
    rw [if_neg hl]
    unfold distSum mostCommon
    have hperm := List.perm_insertionSort
      (fun a b : String × Nat => b.2 ≤ a.2)
      ((uniqueKeys (logs.map LogEntry.ipOf)).map
        fun k => (k, (logs.map LogEntry.ipOf).count k))
    rw [List.Perm.sum_eq (hperm.map Prod.snd)]
    rw [List.map_map]
    have : (Prod.snd ∘ fun k => (k, (logs.map LogEntry.ipOf).count k))
        = fun k => (logs.map LogEntry.ipOf).count k := rfl
    rw [this, sum_counts_uniqueKeys, List.length_map]

/-- C9, counterexample: a snapshot assembled from a backend reply whose
geography distribution sums to 10 while the reported (and recorded) total
request count is 7: nothing in the aggregator reconciles the two, refuting
"the sum of the values in each grouping distribution ... equals the
snapshot's total request count". -/
theorem distribution_sum_mismatch :
    distSum (distributionOf ((prepareComprehensiveAnalysis (Except.ok gCountryMismatch)
        (Except.ok {}) (Except.ok {}) (Except.ok {}) (Except.ok [])
        []).current_period.country_analytics)) = 10
    ∧ (prepareComprehensiveAnalysis (Except.ok gCountryMismatch) (Except.ok {})
        (Except.ok {}) (Except.ok {}) (Except.ok [])
        []).summary_statistics.total_requests = 7
    ∧ (10 : Nat) ≠ 7 := by
  exact ⟨rfl, rfl, by decide⟩

/-- C9 (amended): the snapshot's total request count is the running maximum
of the backend-reported per-dimension totals and is never recomputed from
the distributions, so the claimed identity holds exactly under a backend
consistency assumption: if every dimension reports the same total `t` and
each dimension's distribution sums to `t`, the snapshot total and all four
grouping-distribution sums equal `t`.  The one locally built distribution —
the address distribution — unconditionally sums to the number of log rows
fetched for address analytics, a count the source never reconciles with the
snapshot total. -/
theorem distribution_sums_consistent
    (gc gcy gs gi : GroupData) (logs : List LogEntry) (tcs : List String) (t : Nat)
    (hc : gc.total_requests = some t) (hcy : gcy.total_requests = some t)
    (hs : gs.total_requests = some t) (hi : gi.total_requests = some t)
    (hcd : distSum (distributionOf gc) = t)
    (hcyd : distSum (distributionOf gcy) = t)
    (hsd : distSum (distributionOf gs) = t)
    (hid : distSum (distributionOf gi) = t) :
    (prepareComprehensiveAnalysis (Except.ok gc) (Except.ok gcy) (Except.ok gs)
        (Except.ok gi) (Except.ok logs) tcs).summary_statistics.total_requests = t
    ∧ distSum (distributionOf ((prepareComprehensiveAnalysis (Except.ok gc)
        (Except.ok gcy) (Except.ok gs) (Except.ok gi) (Except.ok logs)
        tcs).current_period.country_analytics)) = t
    ∧ distSum (distributionOf ((prepareComprehensiveAnalysis (Except.ok gc)
        (Except.ok gcy) (Except.ok gs) (Except.ok gi) (Except.ok logs)
        tcs).current_period.city_analytics)) = t
    ∧ distSum (distributionOf ((prepareComprehensiveAnalysis (Except.ok gc)
        (Except.ok gcy) (Except.ok gs) (Except.ok gi) (Except.ok logs)
        tcs).current_period.sensor_analytics)) = t
    ∧ distSum (distributionOf ((prepareComprehensiveAnalysis (Except.ok gc)
        (Except.ok gcy) (Except.ok gs) (Except.ok gi) (Except.ok logs)
        tcs).current_period.isp_analytics)) = t
    ∧ distSum ((prepareComprehensiveAnalysis (Except.ok gc) (Except.ok gcy)
        (Except.ok gs) (Except.ok gi) (Except.ok logs)
        tcs).current_period.ip_analytics.ip_distribution) = logs.length := by
  refine ⟨?_, hcd, hcyd, hsd, hid, ?_⟩
  · simp [prepareComprehensiveAnalysis, calculateSummaryStats, multiDimensionalData,
      fetchGroup, hc, hcy, hs, hi, Nat.zero_max, Nat.max_self]
  · exact ipDistribution_sum logs

/-- C9, witness: the amended theorem applied to a consistent backend reply
set. -/
theorem distribution_sums_consistent_witness :
    (prepareComprehensiveAnalysis (Except.ok gConsistentA) (Except.ok gConsistentB)
        (Except.ok gConsistentB) (Except.ok gConsistentB) (Except.ok logsSample)
        []).summary_statistics.total_requests = 10
    ∧ distSum ((prepareComprehensiveAnalysis (Except.ok gConsistentA)
        (Except.ok gConsistentB) (Except.ok gConsistentB) (Except.ok gConsistentB)
        (Except.ok logsSample) []).current_period.ip_analytics.ip_distribution) = 2 := by
  obtain ⟨h1, -, -, -, -, h6⟩ := distribution_sums_consistent gConsistentA gConsistentB
    gConsistentB gConsistentB logsSample [] 10 rfl rfl rfl rfl
    (by decide) (by decide) (by decide) (by decide)
  exact ⟨h1, h6.trans rfl⟩

/-- C10: every address-analytics record the analytics service actually
produces — whatever the fetch outcome — carries exactly the documented keys
and never a `threat_indicators` key, so on service-produced data the
rule-based command generator always takes its no-threat branch: risk level
Low and the single monitoring command list. -/
theorem service_data_never_flags (country city sensor isp : Except String GroupData)
    (ipOutcome : Except String (List LogEntry)) (tcs : List String) :
    (getIpAnalytics ipOutcome).threat_indicators = none
    ∧ flaggedIps (prepareComprehensiveAnalysis country city sensor isp
        ipOutcome tcs) = []
    ∧ (generateSecurityCommands (prepareComprehensiveAnalysis country city sensor
        isp ipOutcome tcs)).risk_level = some "Low"
    ∧ (generateSecurityCommands (prepareComprehensiveAnalysis country city sensor
        isp ipOutcome tcs)).suggested_commands = some ["iptables -L INPUT -n"] := by
  have hnone : (getIpAnalytics ipOutcome).threat_indicators = none := by
    cases ipOutcome with
    | ok logs =>
      unfold getIpAnalytics analyzeIpAddresses
      by_cases h : logs.isEmpty <;> simp [h]
    | error e => rfl
  have hti : threatIndicatorsOf (prepareComprehensiveAnalysis country city sensor
      isp ipOutcome tcs) = {} := by
    unfold threatIndicatorsOf
    have hd : (prepareComprehensiveAnalysis country city sensor isp
        ipOutcome tcs).current_period.ip_analytics = getIpAnalytics ipOutcome := rfl
    rw [hd, hnone]
    rfl
  have hflag : flaggedIps (prepareComprehensiveAnalysis country city sensor isp
      ipOutcome tcs) = [] := by
    unfold flaggedIps
    rw [hti]
    rfl
  refine ⟨hnone, hflag, ?_, ?_⟩ <;>
    simp [generateSecurityCommands, hflag]

end Sybilla
